import Mathlib

/-!
Verification development for the DeepTalk front-end repository.

This file gives a shallow embedding of the task/calendar data adapter
(`src/src/components/APIs/d.ts`) and of the authentication-state resolver
(the `GoogleAuth` component with `initializeAuth`, `getValidStoredToken`,
`cleanupStoredTokens`, `handleSignOut`, and the `authAPI.signOut` helper),
and proves the stated properties of the priority/status mapping tables,
the display-date rule, the write payload shape, token expiry, URL-token
precedence, and sign-out cleanup.

JavaScript `Date` objects are represented by the ISO string they were
constructed from (`JSDate`); epoch-millisecond clock readings are `Nat`;
JavaScript string truthiness (`if (s)`) is modelled by non-emptiness of the
optional string, and number truthiness (`if (n)`) by the number being
non-zero.
-/

/-- A JavaScript `Date`, identified by the ISO datetime string it was
constructed from (`new Date(s)`).  The adapter never inspects the numeric
value of a date; it only selects which source string becomes the display
date and serializes dates back with `toISOString()`. -/
structure JSDate where
  iso : String
deriving DecidableEq, Repr

/-- Backend task status enumeration (`BackendTask.status` in d.ts). -/
inductive BackendStatus where
  | pending
  | in_progress
  | completed
  | cancelled
  | on_hold
deriving DecidableEq, Repr

/-- Display status enumeration (`CalendarEvent.status` in d.ts). -/
inductive DisplayStatus where
  | not_started
  | in_progress
  | completed
  | cancelled
  | on_hold
deriving DecidableEq, Repr

/-- Display priority enumeration (`CalendarEvent.priority` in d.ts). -/
inductive DisplayPriority where
  | low
  | medium
  | high
  | urgent
deriving DecidableEq, Repr

/-- Display event type (`CalendarEvent.type` in d.ts). -/
inductive EventType where
  | task
  | event
  | reminder
deriving DecidableEq, Repr

/-- The category object nested in a backend task (d.ts lines 11-15). -/
structure BackendCategory where
  id : String
  name : String
  color_hex : String
deriving DecidableEq, Repr

/-- Backend task record (`BackendTask` interface, d.ts lines 7-37).
Optional fields of the TypeScript interface are `Option`s. -/
structure BackendTask where
  id : String
  name : String
  description : String
  category : Option BackendCategory
  tags : List String
  deadline : Option String
  duration_minutes : Option Nat
  specific_time : Option String
  priority : Nat
  urgency : Nat
  status : BackendStatus
  completion_percentage : Nat
  location : String
  required_tools : List String
  created_at : String
  updated_at : String
  completed_at : Option String
deriving DecidableEq, Repr

/-- Front-end calendar event (`CalendarEvent` interface, d.ts lines 40-59).
`id`, `title` and `date` are mandatory in the interface; every other field
is optional. -/
structure CalendarEvent where
  id : String
  title : String
  description : Option String
  date : JSDate
  time : Option String
  deadline : Option JSDate
  duration : Option Nat
  priority : Option DisplayPriority
  status : Option DisplayStatus
  category : Option String
  tags : Option (List String)
  location : Option String
  color : Option String
  type : Option EventType
  completed : Option Bool
  progress : Option Nat
deriving DecidableEq, Repr

/-- Models the TypeScript type `Partial<CalendarEvent>` — the argument type
of `transformCalendarEventToBackendTask` — in which every field, including
`id`, `title` and `date`, may be absent. -/
structure CalendarEventDraft where
  id : Option String := none
  title : Option String := none
  description : Option String := none
  date : Option JSDate := none
  time : Option String := none
  deadline : Option JSDate := none
  duration : Option Nat := none
  priority : Option DisplayPriority := none
  status : Option DisplayStatus := none
  category : Option String := none
  tags : Option (List String) := none
  location : Option String := none
  color : Option String := none
  type : Option EventType := none
  completed : Option Bool := none
  progress : Option Nat := none
deriving DecidableEq, Repr

/-- The coercion of a full `CalendarEvent` into `Partial<CalendarEvent>`:
every mandatory field is present, the optional fields are kept as they
are. -/
def CalendarEvent.toDraft (e : CalendarEvent) : CalendarEventDraft :=
  { id := some e.id
    title := some e.title
    description := e.description
    date := some e.date
    time := e.time
    deadline := e.deadline
    duration := e.duration
    priority := e.priority
    status := e.status
    category := e.category
    tags := e.tags
    location := e.location
    color := e.color
    type := e.type
    completed := e.completed
    progress := e.progress }

/-- Backend write payload (`CreateTaskRequest` interface, d.ts lines 62-74).
Only `name` is mandatory in the interface; note the interface has NO
`status` field. -/
structure CreateTaskRequest where
  name : String
  description : Option String := none
  category : Option String := none
  tags : Option (List String) := none
  deadline : Option String := none
  duration_minutes : Option Nat := none
  specific_time : Option String := none
  priority : Option Nat := none
  urgency : Option Nat := none
  location : Option String := none
  required_tools : Option (List String) := none
deriving DecidableEq, Repr

/-- The key `k` of an optional payload field: present in the serialized
body exactly when the field was assigned. -/
def optKey {α : Type} (x : Option α) (k : String) : List String :=
  match x with
  | some _ => [k]
  | none => []

/-- The set of keys present in the JSON body serialized from a
`CreateTaskRequest` (a key is present exactly when the corresponding
optional field was assigned). -/
def writePayloadFields (r : CreateTaskRequest) : List String :=
  ["name"]
  ++ optKey r.description "description"
  ++ optKey r.category "category"
  ++ optKey r.tags "tags"
  ++ optKey r.deadline "deadline"
  ++ optKey r.duration_minutes "duration_minutes"
  ++ optKey r.specific_time "specific_time"
  ++ optKey r.priority "priority"
  ++ optKey r.urgency "urgency"
  ++ optKey r.location "location"
  ++ optKey r.required_tools "required_tools"

/-- Membership in an optional-field key list. -/
theorem optKey_mem_iff {α : Type} {x : Option α} {k a : String} :
    a ∈ optKey x k ↔ (a = k ∧ x.isSome = true) := by
  cases x <;> simp [optKey]

/-- JavaScript truthiness of an optional string field: `undefined` and the
empty string are falsy. -/
def strTruthy : Option String → Bool
  | none => false
  | some s => !s.isEmpty

/-- Models `format(new Date(s), 'HH:mm')` applied to an ISO datetime
string: the `HH:mm` slice of the string (characters 11-15 of
`YYYY-MM-DDTHH:mm...`). -/
def formatHHmm (s : String) : String :=
  (s.drop 11).take 5

/-- Models the specific-time construction in
`transformCalendarEventToBackendTask` (d.ts lines 296-300):
`const d = new Date(event.date); d.setHours(hours, minutes);
task.specific_time = d.toISOString()`.  The numeric calendar arithmetic is
represented symbolically as the pairing of the base date with the `HH:mm`
string. -/
def combineDateTime (d : JSDate) (time : String) : String :=
  d.iso ++ "@" ++ time

/-- The backend-to-display priority table declared inside
`transformBackendTaskToCalendarEvent` (d.ts lines 227-233).  A key outside
1-5 is absent from the object, hence `none`. -/
def priorityMapB2D : Nat → Option DisplayPriority
  | 1 => some .urgent
  | 2 => some .high
  | 3 => some .medium
  | 4 => some .medium
  | 5 => some .low
  | _ => none

/-- The backend-to-display status table declared inside
`transformBackendTaskToCalendarEvent` (d.ts lines 236-242); it is total on
the five backend statuses. -/
def statusMapB2D : BackendStatus → DisplayStatus
  | .pending => .not_started
  | .in_progress => .in_progress
  | .completed => .completed
  | .cancelled => .cancelled
  | .on_hold => .on_hold

/-- The display-to-backend priority table declared inside
`transformCalendarEventToBackendTask` (d.ts lines 268-273). -/
def priorityMapD2B : DisplayPriority → Nat
  | .urgent => 1
  | .high => 2
  | .medium => 3
  | .low => 5

/-- The display-to-backend status table declared inside
`transformCalendarEventToBackendTask` (d.ts lines 276-282).  Note: the
function declares this table but its body never applies it — the produced
`CreateTaskRequest` carries no status. -/
def statusMapD2B : DisplayStatus → BackendStatus
  | .not_started => .pending
  | .in_progress => .in_progress
  | .completed => .completed
  | .cancelled => .cancelled
  | .on_hold => .on_hold

/-- `transformBackendTaskToCalendarEvent` (d.ts lines 215-264).  The
display date is the specific time when truthy, else the deadline when
truthy, else the creation time; priority and status go through the two
tables above, with the source's `|| 'medium'` and `|| 'not_started'`
fallbacks. -/
def transformBackendTaskToCalendarEvent (task : BackendTask) : CalendarEvent :=
  let displayDate : JSDate :=
    if strTruthy task.specific_time then ⟨task.specific_time.getD ""⟩
    else if strTruthy task.deadline then ⟨task.deadline.getD ""⟩
    else ⟨task.created_at⟩
  { id := task.id
    title := task.name
    description := some task.description
    date := displayDate
    time := if strTruthy task.specific_time then
              some (formatHHmm (task.specific_time.getD ""))
            else none
    deadline := if strTruthy task.deadline then
                  some ⟨task.deadline.getD ""⟩
                else none
    duration := task.duration_minutes
    priority := some ((priorityMapB2D task.priority).getD .medium)
    status := some (statusMapB2D task.status)
    category := task.category.map (fun c => c.name)
    tags := some task.tags
    location := some task.location
    color := some (match task.category with
      | some c => if c.color_hex.isEmpty then "#3b82f6" else c.color_hex
      | none => "#3b82f6")
    type := some .task
    completed := some (task.status == .completed)
    progress := some task.completion_percentage }

/-- `transformCalendarEventToBackendTask` (d.ts lines 266-316), written
field-wise: the base object always assigns `name`, `description`, `tags`,
`location`, `priority` and `urgency` (priority and urgency default to 3
when `event.priority` is unset, and both use the same mapped value);
`specific_time` is assigned only under `if (event.date)` and `if
(event.time)` (a truthy time string), `deadline` is assigned under `if
(event.date)` (the event's deadline when present, else the event date),
and `duration_minutes` under `if (event.duration)` (a non-zero
duration). -/
def transformCalendarEventToBackendTask (event : CalendarEventDraft) : CreateTaskRequest :=
  let priorityNum : Nat :=
    match event.priority with
    | some p => priorityMapD2B p
    | none => 3
  { name := event.title.getD ""
    description := some (event.description.getD "")
    category := none
    tags := some (event.tags.getD [])
    deadline :=
      match event.date with
      | some d =>
        some (match event.deadline with
              | some dl => dl.iso
              | none => d.iso)
      | none => none
    duration_minutes :=
      match event.duration with
      | some dur => if dur = 0 then none else some dur
      | none => none
    specific_time :=
      match event.date with
      | some d =>
        match event.time with
        | some t => if t.isEmpty then none else some (combineDateTime d t)
        | none => none
      | none => none
    priority := some priorityNum
    urgency := some priorityNum
    location := some (event.location.getD "")
    required_tools := none }

/-!
Authentication-state resolver (the second `GoogleAuth` variant:
`initializeAuth`, `getValidStoredToken`, `processNewToken`,
`cleanupStoredTokens`, `handleSignOut`), plus the `authAPI.signOut`
helper from the plain-JavaScript API module.

Local storage is modelled as a record of the four token keys; a
timestamp value is kept as the parsed epoch-millisecond number
(the code stores `Date.now().toString()` and reads it back with
`parseInt`).  Backend interaction is modelled by oracles: `verify`
gives the outcome of `POST /auth/verify-token/` for a given token
(`false` also covers network errors), `sessionOk` the outcome of
`POST /auth/verify-session/`, and `logoutOk` whether the
`POST /auth/logout/` request succeeds.  Each resolver function returns
the ordered trace of its externally visible actions together with the
resulting local storage.
-/

/-- The four persisted browser keys: current (`deeptalk_token`,
`deeptalk_token_timestamp`) and legacy (`gmail_token`,
`gmail_token_timestamp`). -/
structure LocalTokenStore where
  deeptalk_token : Option String
  deeptalk_token_timestamp : Option Nat
  gmail_token : Option String
  gmail_token_timestamp : Option Nat
deriving DecidableEq, Repr

/-- Externally visible actions of the auth resolver, in order. -/
inductive AuthEvent where
  /-- `localStorage.setItem` of the token and a fresh timestamp. -/
  | storeToken (token : String) (timestamp : Nat)
  /-- `window.history.replaceState` removing the token from the URL. -/
  | clearURL
  /-- `cleanupStoredTokens()`: removal of all four persisted keys. -/
  | purgeTokens
  /-- `POST /auth/verify-token/` with the given token. -/
  | verifyTokenRequest (token : String)
  /-- `POST /auth/verify-session/`. -/
  | verifySessionRequest
deriving DecidableEq, Repr

/-- Outcome of the auth resolution. -/
inductive AuthResult where
  /-- Authenticated via bearer token. -/
  | tokenUser (token : String)
  /-- Authenticated via server-side session. -/
  | sessionUser
  /-- No path succeeded; user left unauthenticated. -/
  | unauthenticated
  /-- The URL-token path failed (`processNewToken`'s catch: error shown). -/
  | urlTokenError
deriving DecidableEq, Repr

/-- `cleanupStoredTokens` (GoogleAuth, second variant): removes the two
current keys and the two legacy keys. -/
def cleanupStoredTokens (_s : LocalTokenStore) : LocalTokenStore :=
  { deeptalk_token := none
    deeptalk_token_timestamp := none
    gmail_token := none
    gmail_token_timestamp := none }

/-- `getValidStoredToken` (GoogleAuth, second variant): returns the stored
token when both keys are present (truthy) and the token age
`Date.now() - parseInt(timestamp)` is strictly below
`7 * 24 * 60 * 60 * 1000` ms; otherwise cleans up all stored keys and
returns null.  The result is the returned token, the updated store, and
the emitted actions. -/
def getValidStoredToken (now : Nat) (s : LocalTokenStore) :
    Option String × LocalTokenStore × List AuthEvent :=
  match s.deeptalk_token, s.deeptalk_token_timestamp with
  | some token, some ts =>
    if token.isEmpty then
      (none, cleanupStoredTokens s, [.purgeTokens])
    else
      let tokenAge : Int := (now : Int) - (ts : Int)
      let maxAge : Int := 7 * 24 * 60 * 60 * 1000
      if maxAge ≤ tokenAge then
        (none, cleanupStoredTokens s, [.purgeTokens])
      else
        (some token, s, [])
  | _, _ => (none, cleanupStoredTokens s, [.purgeTokens])

/-- `processNewToken` (GoogleAuth, second variant): persist the URL token
with a fresh timestamp, clear the URL, then verify; on verification
failure the stored keys are cleaned up again and the error state is
set. -/
def processNewToken (now : Nat) (verify : String → Bool) (token : String)
    (s : LocalTokenStore) : List AuthEvent × LocalTokenStore × AuthResult :=
  let s1 := { s with deeptalk_token := some token,
                     deeptalk_token_timestamp := some now }
  let ev : List AuthEvent :=
    [.storeToken token now, .clearURL, .verifyTokenRequest token]
  if verify token then
    (ev, s1, .tokenUser token)
  else
    (ev ++ [.purgeTokens], cleanupStoredTokens s1, .urlTokenError)

/-- `initializeAuth` (GoogleAuth, second variant): priority 1 is a token
in the URL query string (handled by `processNewToken`, after which the
function returns regardless of the verification outcome); priority 2 is a
valid stored token (verified when found); priority 3 is the server-side
session check.  `urlToken` is the result of `getTokenFromURL()`. -/
def initializeAuth (now : Nat) (verify : String → Bool) (sessionOk : Bool)
    (urlToken : Option String) (s : LocalTokenStore) :
    List AuthEvent × LocalTokenStore × AuthResult :=
  match urlToken with
  | some t => processNewToken now verify t s
  | none =>
    match getValidStoredToken now s with
    | (some tok, s1, ev1) =>
      if verify tok then
        (ev1 ++ [.verifyTokenRequest tok], s1, .tokenUser tok)
      else if sessionOk then
        (ev1 ++ [.verifyTokenRequest tok, .verifySessionRequest], s1, .sessionUser)
      else
        (ev1 ++ [.verifyTokenRequest tok, .verifySessionRequest], s1, .unauthenticated)
    | (none, s1, ev1) =>
      if sessionOk then
        (ev1 ++ [.verifySessionRequest], s1, .sessionUser)
      else
        (ev1 ++ [.verifySessionRequest], s1, .unauthenticated)

/-- `handleSignOut` (GoogleAuth, second variant): the backend logout
request runs inside try/catch, so its outcome `logoutOk` does not affect
the subsequent `cleanupStoredTokens()` call, which always removes all
four keys. -/
def handleSignOut (_logoutOk : Bool) (s : LocalTokenStore) : LocalTokenStore :=
  cleanupStoredTokens s

/-- `authAPI.signOut` (plain-JavaScript API module): the logout request
runs inside try/catch with a `finally` block that removes only the two
current keys `deeptalk_token` and `deeptalk_token_timestamp`; the legacy
`gmail_token` keys are not touched. -/
def authAPI_signOut (_logoutOk : Bool) (s : LocalTokenStore) : LocalTokenStore :=
  { s with deeptalk_token := none, deeptalk_token_timestamp := none }

/-! Concrete inputs used by witnesses and counterexamples. -/

/-- A backend task with priority 4 and status pending (and no specific
time). -/
def sampleTaskP4 : BackendTask :=
  { id := "42"
    name := "Quarterly review"
    description := "prepare slides"
    category := none
    tags := ["work"]
    deadline := some "2024-03-01T12:00:00.000Z"
    duration_minutes := some 30
    specific_time := none
    priority := 4
    urgency := 2
    status := .pending
    completion_percentage := 0
    location := "office"
    required_tools := []
    created_at := "2024-02-01T09:00:00.000Z"
    updated_at := "2024-02-01T09:00:00.000Z"
    completed_at := none }

/-- A backend task created with only a name: no deadline and no specific
time, so the display date must fall back to the creation time. -/
def writeReportTask : BackendTask :=
  { id := "77"
    name := "Write report"
    description := ""
    category := none
    tags := []
    deadline := none
    duration_minutes := none
    specific_time := none
    priority := 3
    urgency := 3
    status := .pending
    completion_percentage := 0
    location := ""
    required_tools := []
    created_at := "2024-05-05T08:00:00.000Z"
    updated_at := "2024-05-05T08:00:00.000Z"
    completed_at := none }

/-- A draft (partial event) whose only set field is display priority
`medium`. -/
def sampleDraftMedium : CalendarEventDraft :=
  { priority := some DisplayPriority.medium }

/-- A draft with no field set at all. -/
def emptyDraft : CalendarEventDraft := {}

/-- A full calendar event (mandatory `id`, `title`, `date` present). -/
def sampleCalendarEvent : CalendarEvent :=
  { id := "7"
    title := "Demo"
    description := some "walkthrough"
    date := ⟨"2024-04-01T10:00:00.000Z"⟩
    time := none
    deadline := none
    duration := none
    priority := some .high
    status := some .completed
    category := none
    tags := none
    location := none
    color := none
    type := some .task
    completed := some true
    progress := some 10 }

/-- An empty local token store. -/
def storeEmpty : LocalTokenStore :=
  { deeptalk_token := none
    deeptalk_token_timestamp := none
    gmail_token := none
    gmail_token_timestamp := none }

/-- C1: for every backend priority value in 1-5, the backend-to-display
priority mapping applied by `transformBackendTaskToCalendarEvent` is
deterministic and total and equals 1↦urgent, 2↦high, 3↦medium, 4↦medium,
5↦low; in particular a backend task with priority 4 and status pending
maps to a calendar event with priority medium and status not_started. -/
theorem C1_backend_priority_display_mapping :
    (∀ task : BackendTask,
      (task.priority = 1 →
        (transformBackendTaskToCalendarEvent task).priority = some .urgent) ∧
      (task.priority = 2 →
        (transformBackendTaskToCalendarEvent task).priority = some .high) ∧
      (task.priority = 3 →
        (transformBackendTaskToCalendarEvent task).priority = some .medium) ∧
      (task.priority = 4 →
        (transformBackendTaskToCalendarEvent task).priority = some .medium) ∧
      (task.priority = 5 →
        (transformBackendTaskToCalendarEvent task).priority = some .low)) ∧
    (∀ task : BackendTask, task.priority = 4 → task.status = .pending →
      (transformBackendTaskToCalendarEvent task).priority = some .medium ∧
      (transformBackendTaskToCalendarEvent task).status = some .not_started) := by
  constructor
  · intro task
    refine ⟨?_, ?_, ?_, ?_, ?_⟩ <;> intro h <;>
      simp [transformBackendTaskToCalendarEvent, h, priorityMapB2D]
  · intro task h4 hs
    refine ⟨?_, ?_⟩ <;>
      simp [transformBackendTaskToCalendarEvent, h4, hs, priorityMapB2D, statusMapB2D]

/-- Witness for C1 at the concrete task `sampleTaskP4` (priority 4,
status pending). -/
theorem C1_backend_priority_display_mapping_witness :
    sampleTaskP4.priority = 4 ∧ sampleTaskP4.status = .pending ∧
    (transformBackendTaskToCalendarEvent sampleTaskP4).priority = some .medium ∧
    (transformBackendTaskToCalendarEvent sampleTaskP4).status = some .not_started := by
  refine ⟨rfl, rfl, ?_, ?_⟩
  · exact (C1_backend_priority_display_mapping.2 sampleTaskP4 rfl rfl).1
  · exact (C1_backend_priority_display_mapping.2 sampleTaskP4 rfl rfl).2

/-- C2: the display-to-backend write-back priority mapping in
`transformCalendarEventToBackendTask` is deterministic and total and
equals urgent↦1, high↦2, medium↦3, low↦5; round-tripping backend
priority 4 through the display mapping and back yields 3. -/
theorem C2_display_priority_writeback_mapping :
    (∀ e : CalendarEventDraft,
      (e.priority = some .urgent →
        (transformCalendarEventToBackendTask e).priority = some 1) ∧
      (e.priority = some .high →
        (transformCalendarEventToBackendTask e).priority = some 2) ∧
      (e.priority = some .medium →
        (transformCalendarEventToBackendTask e).priority = some 3) ∧
      (e.priority = some .low →
        (transformCalendarEventToBackendTask e).priority = some 5)) ∧
    (∀ (task : BackendTask) (e : CalendarEventDraft),
      task.priority = 4 →
      e.priority = (transformBackendTaskToCalendarEvent task).priority →
      (transformCalendarEventToBackendTask e).priority = some 3) := by
  constructor
  · intro e
    refine ⟨?_, ?_, ?_, ?_⟩ <;> intro h <;>
      simp [transformCalendarEventToBackendTask, h, priorityMapD2B]
  · intro task e h4 he
    have hm : (transformBackendTaskToCalendarEvent task).priority = some .medium := by
      simp [transformBackendTaskToCalendarEvent, h4, priorityMapB2D]
    rw [hm] at he
    simp [transformCalendarEventToBackendTask, he, priorityMapD2B]

/-- Witness for C2: backend priority 4 displayed by `sampleTaskP4` and
written back through `sampleDraftMedium` yields 3. -/
theorem C2_display_priority_writeback_mapping_witness :
    sampleTaskP4.priority = 4 ∧
    sampleDraftMedium.priority = (transformBackendTaskToCalendarEvent sampleTaskP4).priority ∧
    (transformCalendarEventToBackendTask sampleDraftMedium).priority = some 3 := by
  refine ⟨rfl, by decide, ?_⟩
  exact C2_display_priority_writeback_mapping.2 sampleTaskP4 sampleDraftMedium rfl (by decide)

/-- C3: the backend-to-display status mapping is the identity except
pending↦not_started, the write-back mapping restores pending from
not_started, and composing the two is the identity on all five backend
statuses. -/
theorem C3_status_mapping_roundtrip :
    (statusMapB2D .pending = .not_started) ∧
    (statusMapB2D .in_progress = .in_progress) ∧
    (statusMapB2D .completed = .completed) ∧
    (statusMapB2D .cancelled = .cancelled) ∧
    (statusMapB2D .on_hold = .on_hold) ∧
    (statusMapD2B .not_started = .pending) ∧
    (∀ s : BackendStatus, statusMapD2B (statusMapB2D s) = s) ∧
    (∀ task : BackendTask,
      (transformBackendTaskToCalendarEvent task).status = some (statusMapB2D task.status)) := by
  refine ⟨rfl, rfl, rfl, rfl, rfl, rfl, ?_, ?_⟩
  · intro s; cases s <;> rfl
  · intro task; rfl

/-- C4 counterexample: at the concrete event `sampleCalendarEvent` the
write payload produced by `transformCalendarEventToBackendTask` does NOT
contain all of title (`name`), date (`deadline`), `priority` and
`status`: the `CreateTaskRequest` interface has no status field and the
transform never emits one, so the status key is absent. -/
theorem C4_write_payload_counterexample :
    ¬ ("name" ∈ writePayloadFields
          (transformCalendarEventToBackendTask sampleCalendarEvent.toDraft) ∧
       "deadline" ∈ writePayloadFields
          (transformCalendarEventToBackendTask sampleCalendarEvent.toDraft) ∧
       "priority" ∈ writePayloadFields
          (transformCalendarEventToBackendTask sampleCalendarEvent.toDraft) ∧
       "status" ∈ writePayloadFields
          (transformCalendarEventToBackendTask sampleCalendarEvent.toDraft)) := by
  decide

/-- C4 (amended): for every full `CalendarEvent`, the write payload
produced by `transformCalendarEventToBackendTask` always contains title
(`name`), date (`deadline`), `priority` and `urgency`, but never a
`status` key — the status of the event is dropped on write. -/
theorem C4_write_payload_shape :
    ∀ e : CalendarEvent,
      "name" ∈ writePayloadFields (transformCalendarEventToBackendTask e.toDraft) ∧
      "deadline" ∈ writePayloadFields (transformCalendarEventToBackendTask e.toDraft) ∧
      "priority" ∈ writePayloadFields (transformCalendarEventToBackendTask e.toDraft) ∧
      "urgency" ∈ writePayloadFields (transformCalendarEventToBackendTask e.toDraft) ∧
      "status" ∉ writePayloadFields (transformCalendarEventToBackendTask e.toDraft) := by
  intro e
  have hdl : (transformCalendarEventToBackendTask e.toDraft).deadline.isSome = true := by
    simp [transformCalendarEventToBackendTask, CalendarEvent.toDraft]
  have hpr : (transformCalendarEventToBackendTask e.toDraft).priority.isSome = true := by
    simp [transformCalendarEventToBackendTask, CalendarEvent.toDraft]
  have hur : (transformCalendarEventToBackendTask e.toDraft).urgency.isSome = true := by
    simp [transformCalendarEventToBackendTask, CalendarEvent.toDraft]
  refine ⟨?_, ?_, ?_, ?_, ?_⟩
  · simp [writePayloadFields]
  · simp [writePayloadFields, optKey_mem_iff, hdl]
  · simp [writePayloadFields, optKey_mem_iff, hpr]
  · simp [writePayloadFields, optKey_mem_iff, hur]
  · simp [writePayloadFields, optKey_mem_iff]

/-- Witness for C4 (amended) at the concrete event `sampleCalendarEvent`. -/
theorem C4_write_payload_shape_witness :
    "name" ∈ writePayloadFields
      (transformCalendarEventToBackendTask sampleCalendarEvent.toDraft) ∧
    "deadline" ∈ writePayloadFields
      (transformCalendarEventToBackendTask sampleCalendarEvent.toDraft) ∧
    "priority" ∈ writePayloadFields
      (transformCalendarEventToBackendTask sampleCalendarEvent.toDraft) ∧
    "urgency" ∈ writePayloadFields
      (transformCalendarEventToBackendTask sampleCalendarEvent.toDraft) ∧
    "status" ∉ writePayloadFields
      (transformCalendarEventToBackendTask sampleCalendarEvent.toDraft) :=
  C4_write_payload_shape sampleCalendarEvent

/-- C5: the display date of a calendar event derived from a backend task
is the task's specific scheduled time when present (truthy), else its
deadline when present (truthy), else its creation time; in particular a
task with neither a specific time nor a deadline gets a display date
equal to its creation time. -/
theorem C5_display_date_priority_rule :
    ∀ task : BackendTask,
      (∀ s : String, task.specific_time = some s → s ≠ "" →
        (transformBackendTaskToCalendarEvent task).date = ⟨s⟩) ∧
      (strTruthy task.specific_time = false →
        ∀ d : String, task.deadline = some d → d ≠ "" →
        (transformBackendTaskToCalendarEvent task).date = ⟨d⟩) ∧
      (strTruthy task.specific_time = false → strTruthy task.deadline = false →
        (transformBackendTaskToCalendarEvent task).date = ⟨task.created_at⟩) := by
  intro task
  refine ⟨?_, ?_, ?_⟩
  · intro s hs hne
    have hne' : s.isEmpty = false := by
      cases h : s.isEmpty
      · rfl
      · exact absurd ((String.isEmpty_iff s).mp h) hne
    simp [transformBackendTaskToCalendarEvent, hs, strTruthy, hne']
  · intro hf d hd hne
    have hne' : d.isEmpty = false := by
      cases h : d.isEmpty
      · rfl
      · exact absurd ((String.isEmpty_iff d).mp h) hne
    rcases hspec : task.specific_time with _ | s
    · simp [transformBackendTaskToCalendarEvent, hspec, hd, strTruthy, hne']
    · rw [hspec] at hf
      simp [strTruthy, String.isEmpty_iff] at hf
      subst hf
      simp [transformBackendTaskToCalendarEvent, hspec, hd, strTruthy, hne']
      intro h
      exact absurd h (by decide)
  · intro hf hf2
    simp [transformBackendTaskToCalendarEvent, hf, hf2]

/-- Witness for C5 at the concrete task `writeReportTask` (name only, no
deadline, no specific time): the display date is its creation time. -/
theorem C5_display_date_priority_rule_witness :
    strTruthy writeReportTask.specific_time = false ∧
    strTruthy writeReportTask.deadline = false ∧
    (transformBackendTaskToCalendarEvent writeReportTask).date =
      ⟨"2024-05-05T08:00:00.000Z"⟩ := by
  refine ⟨rfl, rfl, ?_⟩
  exact (C5_display_date_priority_rule writeReportTask).2.2 rfl rfl

/-- C6: a stored token whose age is at least 7 days (604,800,000 ms) is
treated as invalid by the auth resolver: the persisted token material is
purged before any verification attempt, and the resolver falls through to
the session check without ever calling the verify endpoint for that
token. -/
theorem C6_expired_token_purged :
    ∀ (now ts : Nat) (tok : String) (verify : String → Bool) (sessionOk : Bool)
      (s : LocalTokenStore),
      s.deeptalk_token = some tok →
      s.deeptalk_token_timestamp = some ts →
      ts + 604800000 ≤ now →
      (initializeAuth now verify sessionOk none s).1 =
        [.purgeTokens, .verifySessionRequest] ∧
      (initializeAuth now verify sessionOk none s).2.1 =
        ⟨none, none, none, none⟩ ∧
      (∀ u, AuthEvent.verifyTokenRequest u ∉
        (initializeAuth now verify sessionOk none s).1) := by
  intro now ts tok verify sessionOk s h1 h2 h3
  have hage : (604800000 : Int) ≤ (now : Int) - (ts : Int) := by
    omega
  have hstored : getValidStoredToken now s =
      (none, cleanupStoredTokens s, [.purgeTokens]) := by
    rw [getValidStoredToken, h1, h2]
    by_cases he : tok.isEmpty
    · simp [he]
    · simp [he, hage]
  cases sessionOk <;>
    simp [initializeAuth, hstored, cleanupStoredTokens]

/-- Witness for C6: stored token timestamp 0, clock at 8 days
(691,200,000 ms): the token is purged and only the session endpoint is
consulted. -/
theorem C6_expired_token_purged_witness :
    ((⟨some "stored", some 0, none, none⟩ : LocalTokenStore).deeptalk_token
        = some "stored") ∧
    ((⟨some "stored", some 0, none, none⟩ : LocalTokenStore).deeptalk_token_timestamp
        = some 0) ∧
    0 + 604800000 ≤ 691200000 ∧
    ((initializeAuth 691200000 (fun _ => false) false none
        ⟨some "stored", some 0, none, none⟩).1 =
      [.purgeTokens, .verifySessionRequest] ∧
    (initializeAuth 691200000 (fun _ => false) false none
        ⟨some "stored", some 0, none, none⟩).2.1 =
      ⟨none, none, none, none⟩ ∧
    (∀ u, AuthEvent.verifyTokenRequest u ∉
      (initializeAuth 691200000 (fun _ => false) false none
        ⟨some "stored", some 0, none, none⟩).1)) := by
  refine ⟨rfl, rfl, by norm_num, ?_⟩
  exact C6_expired_token_purged 691200000 0 "stored" (fun _ => false) false
    ⟨some "stored", some 0, none, none⟩ rfl rfl (by norm_num)

/-- C7: on an initial auth run with a token in the URL query string, that
token is persisted with a fresh timestamp and verified first; no stored
token is verified and no session check is made, so the URL token takes
precedence over any previously stored token or active session, and when
it verifies successfully the resolver authenticates with it. -/
theorem C7_url_token_precedence :
    ∀ (now : Nat) (verify : String → Bool) (sessionOk : Bool) (t : String)
      (s : LocalTokenStore),
      ((initializeAuth now verify sessionOk (some t) s).1 =
        [.storeToken t now, .clearURL, .verifyTokenRequest t] ++
          (if verify t then [] else [.purgeTokens])) ∧
      (AuthEvent.verifySessionRequest ∉
        (initializeAuth now verify sessionOk (some t) s).1) ∧
      (∀ u, AuthEvent.verifyTokenRequest u ∈
          (initializeAuth now verify sessionOk (some t) s).1 → u = t) ∧
      (verify t = true →
        (initializeAuth now verify sessionOk (some t) s).2.2 = .tokenUser t ∧
        (initializeAuth now verify sessionOk (some t) s).2.1 =
          { s with deeptalk_token := some t,
                   deeptalk_token_timestamp := some now }) := by
  intro now verify sessionOk t s
  cases hv : verify t <;>
    simp [initializeAuth, processNewToken, hv]

/-- Witness for C7 at concrete arguments (URL token "urltok", clock 0,
verification succeeding). -/
theorem C7_url_token_precedence_witness :
    ((initializeAuth 0 (fun _ => true) true (some "urltok") storeEmpty).1 =
      [.storeToken "urltok" 0, .clearURL, .verifyTokenRequest "urltok"] ++
        (if (fun (_ : String) => true) "urltok" then [] else [.purgeTokens])) ∧
    (AuthEvent.verifySessionRequest ∉
      (initializeAuth 0 (fun _ => true) true (some "urltok") storeEmpty).1) ∧
    (∀ u, AuthEvent.verifyTokenRequest u ∈
        (initializeAuth 0 (fun _ => true) true (some "urltok") storeEmpty).1 →
        u = "urltok") ∧
    ((fun (_ : String) => true) "urltok" = true →
      (initializeAuth 0 (fun _ => true) true (some "urltok") storeEmpty).2.2 =
        .tokenUser "urltok" ∧
      (initializeAuth 0 (fun _ => true) true (some "urltok") storeEmpty).2.1 =
        { storeEmpty with deeptalk_token := some "urltok",
                          deeptalk_token_timestamp := some 0 }) :=
  C7_url_token_precedence 0 (fun _ => true) true "urltok" storeEmpty

/-- C8 counterexample: the sign-out implemented by `authAPI.signOut`,
run with a failing backend logout on a store holding a legacy token,
leaves the legacy keys `gmail_token`/`gmail_token_timestamp` in place —
so it is not the case that every sign-out removes both the current and
the legacy keys. -/
theorem C8_signout_counterexample :
    ¬ ((authAPI_signOut false
          ⟨some "tok", some 1000, some "legacy", some 500⟩).gmail_token = none ∧
       (authAPI_signOut false
          ⟨some "tok", some 1000, some "legacy", some 500⟩).gmail_token_timestamp
          = none) := by
  decide

/-- C8 (amended): the GoogleAuth resolver's sign-out (`handleSignOut`,
via `cleanupStoredTokens`) removes both the current keys and the legacy
keys even when the backend logout request fails, while the
`authAPI.signOut` helper removes only the current `deeptalk` keys (also
regardless of the logout outcome) and leaves the legacy keys
untouched. -/
theorem C8_signout_cleanup :
    ∀ (logoutOk : Bool) (s : LocalTokenStore),
      (handleSignOut logoutOk s).deeptalk_token = none ∧
      (handleSignOut logoutOk s).deeptalk_token_timestamp = none ∧
      (handleSignOut logoutOk s).gmail_token = none ∧
      (handleSignOut logoutOk s).gmail_token_timestamp = none ∧
      (authAPI_signOut logoutOk s).deeptalk_token = none ∧
      (authAPI_signOut logoutOk s).deeptalk_token_timestamp = none ∧
      (authAPI_signOut logoutOk s).gmail_token = s.gmail_token ∧
      (authAPI_signOut logoutOk s).gmail_token_timestamp = s.gmail_token_timestamp := by
  intro logoutOk s
  exact ⟨rfl, rfl, rfl, rfl, rfl, rfl, rfl, rfl⟩

/-- C9: when the draft event's priority is unset, the write payload
defaults both the priority and the urgency field to backend value 3
(medium). -/
theorem C9_default_priority_urgency :
    ∀ e : CalendarEventDraft, e.priority = none →
      (transformCalendarEventToBackendTask e).priority = some 3 ∧
      (transformCalendarEventToBackendTask e).urgency = some 3 := by
  intro e h
  refine ⟨?_, ?_⟩ <;> simp [transformCalendarEventToBackendTask, h]

/-- Witness for C9 at the all-unset draft `emptyDraft`. -/
theorem C9_default_priority_urgency_witness :
    emptyDraft.priority = none ∧
    (transformCalendarEventToBackendTask emptyDraft).priority = some 3 ∧
    (transformCalendarEventToBackendTask emptyDraft).urgency = some 3 := by
  refine ⟨rfl, ?_, ?_⟩
  · exact (C9_default_priority_urgency emptyDraft rfl).1
  · exact (C9_default_priority_urgency emptyDraft rfl).2

/-- C10: for every draft event, whether or not its priority is set, the
write payload's urgency equals its priority; the event carries no urgency
information of its own, so no write can express an urgency different from
the mapped priority. -/
theorem C10_urgency_equals_priority :
    ∀ e : CalendarEventDraft,
      (transformCalendarEventToBackendTask e).urgency =
        (transformCalendarEventToBackendTask e).priority := by
  intro e
  rfl
